import Mathlib

/-!
Shallow embedding of the banking core of `app.py` (classes `BankAccount` and
`BankingSystem`).  Python numbers ("money") are modelled as rationals `ℚ`;
a user-supplied value that may fail the `isinstance(x, (int, float))` check
is modelled by the sum type `PyVal`.  Exceptions are modelled by
`Except BankErr`; `TypeError` and `ValueError` keep their message strings.
`datetime.datetime.now()` and `uuid.uuid4()` are modelled by explicit
parameters (a `Timestamp` argument, a fresh-identifier string argument).
The Python `dict` of accounts is modelled as an insertion-ordered
association list.
-/

/-- A value handed to the banking code: either a number (`int`/`float`,
modelled as `ℚ`) or some non-numeric object. -/
inductive PyVal where
  | num (q : ℚ)
  | nonNum
deriving DecidableEq, Repr

/-- Python exceptions raised by the banking code: `TypeError(msg)` or
`ValueError(msg)`. -/
inductive BankErr where
  | typeError (m : String)
  | valueError (m : String)
deriving DecidableEq, Repr

/-- `str(e)` of a `TypeError`/`ValueError` is its message. -/
def BankErr.msg : BankErr → String
  | .typeError m => m
  | .valueError m => m

/-- The error is the `ValueError("Insufficient funds.")` raised by
`withdraw` when the amount exceeds the balance. -/
def BankErr.isInsufficientFunds : BankErr → Bool
  | .typeError _ => false
  | .valueError m => m = "Insufficient funds."

/-- A `datetime.datetime` value as recorded by `_add_transaction`. -/
structure Timestamp where
  year : Nat
  month : Nat
  day : Nat
  hour : Nat
  minute : Nat
  second : Nat
deriving DecidableEq, Repr

/-- One entry of `self.transactions`:
`{"timestamp": timestamp, "type": transaction_type, "amount": amount}`. -/
structure Transaction where
  timestamp : Timestamp
  type : String
  amount : ℚ
deriving DecidableEq, Repr

/-- The state of a `BankAccount` object. -/
structure BankAccount where
  account_number : String
  account_holder_name : String
  balance : ℚ
  account_type : String
  transactions : List Transaction
  creation_date : String
deriving DecidableEq, Repr

/-- Zero-pad a natural number to two digits, as `%m`, `%d`, `%H`, `%M`,
`%S` do in `strftime`. -/
def pad2 (n : Nat) : String :=
  (if n < 10 then "0" else "") ++ toString n

/-- Zero-pad a year to four digits, as `%Y` does in `strftime`. -/
def pad4 (n : Nat) : String :=
  (if n < 10 then "000" else if n < 100 then "00" else if n < 1000 then "0" else "")
    ++ toString n

/-- `timestamp.strftime('%Y-%m-%d %H:%M:%S')`. -/
def Timestamp.strftime (t : Timestamp) : String :=
  pad4 t.year ++ "-" ++ pad2 t.month ++ "-" ++ pad2 t.day ++ " "
    ++ pad2 t.hour ++ ":" ++ pad2 t.minute ++ ":" ++ pad2 t.second

/-- Python format spec `:.2f`: the number rounded to two decimal places,
with exactly two digits after the point and a leading minus sign for
negative values. -/
def fmt2 (q : ℚ) : String :=
  let n : ℤ := round (|q| * 100)
  let sign := if q < 0 then "-" else ""
  let cents := (n % 100).toNat
  sign ++ toString (n / 100) ++ "." ++ (if cents < 10 then "0" else "") ++ toString cents

/-- Python format spec `:<w` on a string: left-align by padding with
spaces up to width `w`. -/
def padRight (s : String) (w : Nat) : String :=
  s ++ String.mk (List.replicate (w - s.length) ' ')

/-- Python format spec `:>w` on a string: right-align by padding with
spaces up to width `w`. -/
def padLeft (s : String) (w : Nat) : String :=
  String.mk (List.replicate (w - s.length) ' ') ++ s

/-- `"-" * 30`, the border line used by the report methods. -/
def dashes30 : String :=
  String.mk (List.replicate 30 '-')

/-- `BankAccount.__init__`.  The fresh `uuid` string and the current date
are passed explicitly; raising is modelled by `Except.error`. -/
def BankAccount.init (account_holder_name : String) (initial_balance : PyVal)
    (account_type : String) (freshId : String) (today : String) :
    Except BankErr BankAccount :=
  match initial_balance with
  | .nonNum => .error (.typeError "Initial balance must be a number.")
  | .num q =>
    if q < 0 then .error (.valueError "Initial balance cannot be negative.")
    else .ok { account_number := freshId
               account_holder_name := account_holder_name
               balance := q
               account_type := account_type
               transactions := []
               creation_date := today }

/-- `BankAccount._add_transaction`, with the `datetime.datetime.now()`
timestamp passed explicitly. -/
def BankAccount.add_transaction (acc : BankAccount) (transaction_type : String)
    (amount : ℚ) (now : Timestamp) : BankAccount :=
  { acc with transactions :=
      acc.transactions ++ [{ timestamp := now, type := transaction_type, amount := amount }] }

/-- `BankAccount.deposit`. -/
def BankAccount.deposit (acc : BankAccount) (amount : PyVal) (now : Timestamp) :
    Except BankErr (BankAccount × String) :=
  match amount with
  | .nonNum => .error (.typeError "Deposit amount must be a number.")
  | .num q =>
    if q ≤ 0 then .error (.valueError "Deposit amount must be positive.")
    else
      let acc1 := { acc with balance := acc.balance + q }
      let acc2 := acc1.add_transaction "Deposit" q now
      .ok (acc2, "Deposited $" ++ fmt2 q ++ ". New balance: $" ++ fmt2 acc1.balance)

/-- `BankAccount.withdraw`. -/
def BankAccount.withdraw (acc : BankAccount) (amount : PyVal) (now : Timestamp) :
    Except BankErr (BankAccount × String) :=
  match amount with
  | .nonNum => .error (.typeError "Withdrawal amount must be a number.")
  | .num q =>
    if q ≤ 0 then .error (.valueError "Withdrawal amount must be positive.")
    else if acc.balance < q then .error (.valueError "Insufficient funds.")
    else
      let acc1 := { acc with balance := acc.balance - q }
      let acc2 := acc1.add_transaction "Withdrawal" (-q) now
      .ok (acc2, "Withdrew $" ++ fmt2 q ++ ". New balance: $" ++ fmt2 acc1.balance)

/-- `BankAccount.get_balance`. -/
def BankAccount.get_balance (acc : BankAccount) : ℚ :=
  acc.balance

/-- `BankAccount.get_account_details`. -/
def BankAccount.get_account_details (acc : BankAccount) : String :=
  "Account Number: " ++ acc.account_number ++ "\n"
    ++ "Account Holder: " ++ acc.account_holder_name ++ "\n"
    ++ "Account Type: " ++ acc.account_type ++ "\n"
    ++ "Balance: $" ++ fmt2 acc.balance ++ "\n"
    ++ "Creation Date: " ++ acc.creation_date ++ "\n"

/-- One line of the transaction-history report:
`f"{ts.strftime('%Y-%m-%d %H:%M:%S')} - {type:<10}: ${amount:>8.2f}\n"`. -/
def transactionLine (t : Transaction) : String :=
  t.timestamp.strftime ++ " - " ++ padRight t.type 10 ++ ": $"
    ++ padLeft (fmt2 t.amount) 8 ++ "\n"

/-- `BankAccount.format_transaction_history`, with the `+=` loop modelled
as a left fold. -/
def BankAccount.format_transaction_history (acc : BankAccount) : String :=
  if acc.transactions.isEmpty then "No transactions yet."
  else
    (acc.transactions.foldl (fun h t => h ++ transactionLine t)
      (dashes30 ++ "\nTransaction History:\n" ++ dashes30 ++ "\n")) ++ dashes30

/-- The state of the `BankingSystem` object: the Python `dict` of accounts
as an insertion-ordered association list. -/
structure BankingSystem where
  accounts : List (String × BankAccount)
deriving DecidableEq, Repr

/-- `d[k] = v` on a Python dict: update in place if the key is present
(keeping its position), otherwise append at the end (dicts preserve
insertion order). -/
def dictSet : List (String × BankAccount) → String → BankAccount →
    List (String × BankAccount)
  | [], k, v => [(k, v)]
  | p :: m, k, v => if p.1 = k then (k, v) :: m else p :: dictSet m k v

/-- `d.get(k)` on a Python dict. -/
def dictGet : List (String × BankAccount) → String → Option BankAccount
  | [], _ => none
  | p :: m, k => if p.1 = k then some p.2 else dictGet m k

/-- `del d[k]` on a Python dict (the caller has checked `k in d`; dict keys
are unique, so removing the one matching entry). -/
def dictDel : List (String × BankAccount) → String →
    List (String × BankAccount)
  | [], _ => []
  | p :: m, k => if p.1 = k then m else p :: dictDel m k

/-- `BankingSystem.create_account`.  The fresh identifier and today's date
are passed through to `BankAccount.__init__`; the `try/except` boundary
converts a raised error into a failure message. -/
def BankingSystem.create_account (sys : BankingSystem) (account_holder_name : String)
    (initial_balance : PyVal) (account_type : String) (freshId : String)
    (today : String) : BankingSystem × String :=
  match BankAccount.init account_holder_name initial_balance account_type freshId today with
  | .ok account =>
    ({ accounts := dictSet sys.accounts account.account_number account },
     "Account created successfully. Account number: " ++ account.account_number)
  | .error e => (sys, "Account creation failed: " ++ e.msg)

/-- `BankingSystem.get_account`. -/
def BankingSystem.get_account (sys : BankingSystem) (account_number : String) :
    Option BankAccount :=
  dictGet sys.accounts account_number

/-- `BankingSystem.delete_account`. -/
def BankingSystem.delete_account (sys : BankingSystem) (account_number : String) :
    BankingSystem × String :=
  if sys.accounts.any (fun p => p.1 = account_number) then
    ({ accounts := dictDel sys.accounts account_number },
     "Account " ++ account_number ++ " deleted successfully.")
  else
    (sys, "Account " ++ account_number ++ " not found.")

/-- `BankingSystem.list_all_accounts`, with the `+=` loop as a left fold. -/
def BankingSystem.list_all_accounts (sys : BankingSystem) : String :=
  if sys.accounts.isEmpty then "No accounts in the system."
  else
    sys.accounts.foldl (fun h p => h ++ p.2.get_account_details ++ dashes30 ++ "\n")
      (dashes30 ++ "\nList of All Accounts:\n" ++ dashes30 ++ "\n")

/-- A user action on one account, carrying the raw input value and the
timestamp at which the action happens. -/
inductive Op where
  | dep (a : PyVal) (t : Timestamp)
  | wd (a : PyVal) (t : Timestamp)
deriving DecidableEq, Repr

/-- Run one action on an account; a raised error leaves the account as it
was (the source mutates only after all checks pass). -/
def applyOp (acc : BankAccount) (op : Op) : BankAccount :=
  match op with
  | .dep a t =>
    match acc.deposit a t with
    | .ok (acc', _) => acc'
    | .error _ => acc
  | .wd a t =>
    match acc.withdraw a t with
    | .ok (acc', _) => acc'
    | .error _ => acc

/-- Run a sequence of actions on an account. -/
def applyOps (acc : BankAccount) (ops : List Op) : BankAccount :=
  ops.foldl applyOp acc

/-- The sum of the signed amounts of all recorded transactions. -/
def txSum (acc : BankAccount) : ℚ :=
  (acc.transactions.map (fun t => t.amount)).sum

/-! ## Helper lemmas -/

lemma txSum_add_transaction (acc : BankAccount) (ty : String) (q : ℚ) (t : Timestamp) :
    txSum (acc.add_transaction ty q t) = txSum acc + q := by
  simp [txSum, BankAccount.add_transaction]

lemma dictGet_dictSet (m : List (String × BankAccount)) (k k' : String) (v : BankAccount) :
    dictGet (dictSet m k v) k' = if k' = k then some v else dictGet m k' := by
  induction m with
  | nil =>
    simp only [dictSet, dictGet]
    by_cases h : k = k'
    · simp [h]
    · rw [if_neg h, if_neg (fun hc => h hc.symm)]
  | cons p m ih =>
    by_cases hp : p.1 = k
    · simp only [dictSet, if_pos hp, dictGet]
      by_cases h : k = k'
      · simp [h]
      · rw [if_neg h, if_neg (fun hc => h hc.symm),
          if_neg (fun hc : p.1 = k' => h (hp.symm.trans hc))]
    · simp only [dictSet, if_neg hp, dictGet, ih]
      by_cases h1 : p.1 = k'
      · by_cases h2 : k' = k
        · exact absurd (h1.trans h2) hp
        · rw [if_pos h1, if_neg h2, if_pos h1]
      · by_cases h2 : k' = k
        · rw [if_neg h1, if_pos h2, if_pos h2]
        · rw [if_neg h1, if_neg h2, if_neg h2, if_neg h1]

lemma dictGet_dictDel_ne (m : List (String × BankAccount)) (k k' : String)
    (h : k' ≠ k) : dictGet (dictDel m k) k' = dictGet m k' := by
  induction m with
  | nil => rfl
  | cons p m ih =>
    by_cases hp : p.1 = k
    · simp only [dictDel, if_pos hp, dictGet]
      rw [if_neg (fun hc : p.1 = k' => h (hc.symm.trans hp))]
    · simp only [dictDel, if_neg hp, dictGet, ih]

lemma dictGet_eq_none (m : List (String × BankAccount)) (k : String)
    (h : k ∉ m.map Prod.fst) : dictGet m k = none := by
  induction m with
  | nil => rfl
  | cons p m ih =>
    simp only [List.map_cons, List.mem_cons] at h
    push_neg at h
    simp only [dictGet]
    rw [if_neg (fun hc : p.1 = k => h.1 hc.symm)]
    exact ih h.2

lemma not_mem_keys_dictDel (m : List (String × BankAccount)) (k : String)
    (hnd : (m.map Prod.fst).Nodup) : k ∉ (dictDel m k).map Prod.fst := by
  induction m with
  | nil => simp [dictDel]
  | cons p m ih =>
    simp only [List.map_cons, List.nodup_cons] at hnd
    by_cases hp : p.1 = k
    · simp only [dictDel, if_pos hp]
      intro hk
      exact hnd.1 (hp.symm ▸ hk)
    · simp only [dictDel, if_neg hp, List.map_cons, List.mem_cons]
      push_neg
      exact ⟨fun hc => hp hc.symm, ih hnd.2⟩

lemma any_eq_false_iff (m : List (String × BankAccount)) (k : String) :
    m.any (fun p => p.1 = k) = false ↔ k ∉ m.map Prod.fst := by
  induction m with
  | nil => simp
  | cons p m ih =>
    simp only [List.any_cons, Bool.or_eq_false_iff, decide_eq_false_iff_not,
      List.map_cons, List.mem_cons, ih]
    constructor
    · rintro ⟨h1, h2⟩ hk
      rcases hk with hk | hk
      · exact h1 hk.symm
      · exact h2 hk
    · intro h
      push_neg at h
      exact ⟨fun hc => h.1 hc.symm, h.2⟩

/-- Concatenation of a list of strings, in order. -/
def joinAll : List String → String
  | [] => ""
  | s :: rest => s ++ joinAll rest

lemma foldl_transactionLine (ts : List Transaction) (s : String) :
    ts.foldl (fun h t => h ++ transactionLine t) s
      = s ++ joinAll (ts.map transactionLine) := by
  induction ts generalizing s with
  | nil => simp [joinAll]
  | cons t ts ih =>
    simp only [List.foldl_cons, List.map_cons, joinAll, ih, String.append_assoc]

lemma fmt2_neg (q : ℚ) (hq : q < 0) : fmt2 q = "-" ++ fmt2 (-q) := by
  simp only [fmt2, abs_neg, if_pos hq, if_neg (not_lt.mpr (neg_nonneg.mpr hq.le))]
  rfl

lemma txSum_set_balance (acc : BankAccount) (b : ℚ) :
    txSum { acc with balance := b } = txSum acc := rfl

lemma balance_add_transaction (acc : BankAccount) (ty : String) (q : ℚ) (t : Timestamp) :
    (acc.add_transaction ty q t).balance = acc.balance := rfl

lemma applyOp_dep_pos (acc : BankAccount) (q : ℚ) (t : Timestamp) (hq : 0 < q) :
    applyOp acc (.dep (.num q) t)
      = ({ acc with balance := acc.balance + q } : BankAccount).add_transaction
          "Deposit" q t := by
  simp [applyOp, BankAccount.deposit, not_le.mpr hq]

lemma applyOp_wd_pos (acc : BankAccount) (q : ℚ) (t : Timestamp) (hq : 0 < q)
    (hb : q ≤ acc.balance) :
    applyOp acc (.wd (.num q) t)
      = ({ acc with balance := acc.balance - q } : BankAccount).add_transaction
          "Withdrawal" (-q) t := by
  simp [applyOp, BankAccount.withdraw, not_le.mpr hq, not_lt.mpr hb]

lemma applyOp_invariant (c : ℚ) (acc : BankAccount) (op : Op)
    (h1 : 0 ≤ acc.balance) (h2 : acc.balance = c + txSum acc) :
    0 ≤ (applyOp acc op).balance
      ∧ (applyOp acc op).balance = c + txSum (applyOp acc op) := by
  cases op with
  | dep a t =>
    cases a with
    | nonNum =>
      simp only [applyOp, BankAccount.deposit]
      exact ⟨h1, h2⟩
    | num q =>
      by_cases hq : q ≤ 0
      · simp only [applyOp, BankAccount.deposit, if_pos hq]
        exact ⟨h1, h2⟩
      · push_neg at hq
        rw [applyOp_dep_pos acc q t hq, balance_add_transaction,
          txSum_add_transaction, txSum_set_balance]
        show 0 ≤ acc.balance + q ∧ acc.balance + q = c + (txSum acc + q)
        constructor
        · linarith
        · linarith
  | wd a t =>
    cases a with
    | nonNum =>
      simp only [applyOp, BankAccount.withdraw]
      exact ⟨h1, h2⟩
    | num q =>
      by_cases hq : q ≤ 0
      · simp only [applyOp, BankAccount.withdraw, if_pos hq]
        exact ⟨h1, h2⟩
      · push_neg at hq
        by_cases hb : acc.balance < q
        · simp only [applyOp, BankAccount.withdraw, if_neg (not_le.mpr hq), if_pos hb]
          exact ⟨h1, h2⟩
        · push_neg at hb
          rw [applyOp_wd_pos acc q t hq hb, balance_add_transaction,
            txSum_add_transaction, txSum_set_balance]
          show 0 ≤ acc.balance - q ∧ acc.balance - q = c + (txSum acc + -q)
          constructor
          · linarith
          · linarith

lemma applyOps_invariant (c : ℚ) (ops : List Op) (acc : BankAccount)
    (h1 : 0 ≤ acc.balance) (h2 : acc.balance = c + txSum acc) :
    0 ≤ (applyOps acc ops).balance
      ∧ (applyOps acc ops).balance = c + txSum (applyOps acc ops) := by
  induction ops generalizing acc with
  | nil => exact ⟨h1, h2⟩
  | cons op ops ih =>
    have h := applyOp_invariant c acc op h1 h2
    exact ih (applyOp acc op) h.1 h.2

/-- The error carried by a failed call, `none` on success. -/
def errOf {α : Type} : Except BankErr α → Option BankErr
  | .error e => some e
  | .ok _ => none

/-! ## Concrete data for witnesses -/

def ts1 : Timestamp :=
  { year := 2026, month := 1, day := 2, hour := 3, minute := 4, second := 5 }

def ts2 : Timestamp :=
  { year := 2026, month := 1, day := 2, hour := 3, minute := 10, second := 0 }

def accA : BankAccount :=
  { account_number := "id1", account_holder_name := "Alice", balance := 150,
    account_type := "Savings", transactions := [], creation_date := "2026-01-01" }

def accB : BankAccount :=
  { account_number := "id2", account_holder_name := "Bob", balance := 20,
    account_type := "Checking", transactions := [], creation_date := "2026-01-01" }

def accH : BankAccount :=
  { account_number := "id3", account_holder_name := "Carol", balance := 120,
    account_type := "Savings",
    transactions :=
      [{ timestamp := ts1, type := "Deposit", amount := 50 },
       { timestamp := ts2, type := "Withdrawal", amount := -30 }],
    creation_date := "2026-01-01" }

def sys0 : BankingSystem := { accounts := [] }

def sysA : BankingSystem := { accounts := [("id1", accA), ("id2", accB)] }

def accInit : BankAccount :=
  { account_number := "id1", account_holder_name := "Alice", balance := 100,
    account_type := "Savings", transactions := [], creation_date := "2026-01-01" }

def opsW : List Op :=
  [.dep (.num 50) ts1, .wd (.num 30) ts2, .wd (.num 1000) ts2]

/-! ## Claim theorems -/

/-- C1: starting from any successful construction, after any sequence of
deposit/withdraw actions the balance is never negative and always equals
the initial balance plus the sum of the signed amounts of all recorded
transactions (a failed action leaves the account unchanged, so the
invariant in particular holds along any sequence of successful
operations). -/
theorem balance_invariant (name ty id today : String) (q : ℚ) (acc0 : BankAccount)
    (ops : List Op)
    (h : BankAccount.init name (.num q) ty id today = .ok acc0) :
    0 ≤ (applyOps acc0 ops).balance
      ∧ (applyOps acc0 ops).balance = q + txSum (applyOps acc0 ops) := by
  have hq : ¬ q < 0 := by
    intro hlt
    simp [BankAccount.init, hlt] at h
  simp only [BankAccount.init, if_neg hq, Except.ok.injEq] at h
  subst h
  exact applyOps_invariant q ops _ (not_lt.mp hq) (by simp [txSum])

/-- C1 witness: account created with balance 100, then deposit 50,
withdraw 30, and a failing withdraw 1000. -/
theorem balance_invariant_witness :
    BankAccount.init "Alice" (.num 100) "Savings" "id1" "2026-01-01" = .ok accInit
      ∧ 0 ≤ (applyOps accInit opsW).balance
      ∧ (applyOps accInit opsW).balance = 100 + txSum (applyOps accInit opsW) :=
  ⟨rfl, balance_invariant "Alice" "Savings" "id1" "2026-01-01" 100 accInit opsW rfl⟩

/-- C2: for `0 < amount ≤ balance`, `withdraw` subtracts exactly the
amount from the balance, appends exactly one `Withdrawal` transaction with
signed amount `-amount`, and returns the message built from the amount and
the resulting balance in two-decimal format. -/
theorem withdraw_ok (acc : BankAccount) (q : ℚ) (t : Timestamp)
    (h1 : 0 < q) (h2 : q ≤ acc.balance) :
    acc.withdraw (.num q) t =
      .ok ({ acc with
               balance := acc.balance - q,
               transactions := acc.transactions
                 ++ [{ timestamp := t, type := "Withdrawal", amount := -q }] },
           "Withdrew $" ++ fmt2 q ++ ". New balance: $" ++ fmt2 (acc.balance - q)) := by
  simp [BankAccount.withdraw, BankAccount.add_transaction,
    not_le.mpr h1, not_lt.mpr h2]

/-- C2 witness: withdrawing 30 from a balance of 150. -/
theorem withdraw_ok_witness :
    (0:ℚ) < 30 ∧ (30:ℚ) ≤ accA.balance ∧
    accA.withdraw (.num 30) ts1 =
      .ok ({ accA with
               balance := accA.balance - 30,
               transactions := accA.transactions
                 ++ [{ timestamp := ts1, type := "Withdrawal", amount := -30 }] },
           "Withdrew $" ++ fmt2 30 ++ ". New balance: $" ++ fmt2 (accA.balance - 30)) :=
  ⟨by norm_num, by norm_num [accA],
    withdraw_ok accA 30 ts1 (by norm_num) (by norm_num [accA])⟩

/-- C3: for `amount > 0`, `deposit` adds exactly the amount to the
balance, appends exactly one `Deposit` transaction with signed amount
`+amount`, and returns the message built from the amount and the resulting
balance in two-decimal format. -/
theorem deposit_ok (acc : BankAccount) (q : ℚ) (t : Timestamp) (h1 : 0 < q) :
    acc.deposit (.num q) t =
      .ok ({ acc with
               balance := acc.balance + q,
               transactions := acc.transactions
                 ++ [{ timestamp := t, type := "Deposit", amount := q }] },
           "Deposited $" ++ fmt2 q ++ ". New balance: $" ++ fmt2 (acc.balance + q)) := by
  simp [BankAccount.deposit, BankAccount.add_transaction, not_le.mpr h1]

/-- C3 witness: depositing 50 into a balance of 150. -/
theorem deposit_ok_witness :
    (0:ℚ) < 50 ∧
    accA.deposit (.num 50) ts1 =
      .ok ({ accA with
               balance := accA.balance + 50,
               transactions := accA.transactions
                 ++ [{ timestamp := ts1, type := "Deposit", amount := 50 }] },
           "Deposited $" ++ fmt2 50 ++ ". New balance: $" ++ fmt2 (accA.balance + 50)) :=
  ⟨by norm_num, deposit_ok accA 50 ts1 (by norm_num)⟩

/-- C4: for `amount > balance` (with `amount > 0`), `withdraw` raises the
insufficient-funds error and the account state (balance and transaction
log) is unchanged. -/
theorem withdraw_insufficient (acc : BankAccount) (q : ℚ) (t : Timestamp)
    (h1 : 0 < q) (h2 : acc.balance < q) :
    acc.withdraw (.num q) t = .error (.valueError "Insufficient funds.")
      ∧ applyOp acc (.wd (.num q) t) = acc := by
  have hw : acc.withdraw (.num q) t = .error (.valueError "Insufficient funds.") := by
    simp [BankAccount.withdraw, not_le.mpr h1, h2]
  exact ⟨hw, by simp [applyOp, hw]⟩

/-- C4 witness: withdrawing 1000 from a balance of 150. -/
theorem withdraw_insufficient_witness :
    (0:ℚ) < 1000 ∧ accA.balance < 1000 ∧
    (accA.withdraw (.num 1000) ts1 = .error (.valueError "Insufficient funds.")
      ∧ applyOp accA (.wd (.num 1000) ts1) = accA) :=
  ⟨by norm_num, by norm_num [accA],
    withdraw_insufficient accA 1000 ts1 (by norm_num) (by norm_num [accA])⟩

/-- C5: a non-numeric or non-positive deposit/withdraw amount, and a
non-numeric or negative initial balance at construction, each raise an
error that is not the insufficient-funds error (the distinct
invalid-argument kind), with no state change: the account is unchanged and
no account is stored in the ledger. -/
theorem invalid_argument_rejected (sys : BankingSystem) (acc : BankAccount)
    (a b : PyVal) (t : Timestamp) (name ty id today : String)
    (ha : a = .nonNum ∨ ∃ q, a = .num q ∧ q ≤ 0)
    (hb : b = .nonNum ∨ ∃ q, b = .num q ∧ q < 0) :
    (errOf (acc.deposit a t)).map BankErr.isInsufficientFunds = some false
      ∧ (errOf (acc.withdraw a t)).map BankErr.isInsufficientFunds = some false
      ∧ applyOp acc (.dep a t) = acc
      ∧ applyOp acc (.wd a t) = acc
      ∧ (errOf (BankAccount.init name b ty id today)).map BankErr.isInsufficientFunds
          = some false
      ∧ (sys.create_account name b ty id today).1 = sys := by
  have hDW : (errOf (acc.deposit a t)).map BankErr.isInsufficientFunds = some false
      ∧ (errOf (acc.withdraw a t)).map BankErr.isInsufficientFunds = some false
      ∧ applyOp acc (.dep a t) = acc ∧ applyOp acc (.wd a t) = acc := by
    rcases ha with rfl | ⟨q, rfl, hq⟩
    · exact ⟨rfl, rfl, rfl, rfl⟩
    · have h1 : acc.deposit (.num q) t
          = .error (.valueError "Deposit amount must be positive.") := by
        simp [BankAccount.deposit, hq]
      have h2 : acc.withdraw (.num q) t
          = .error (.valueError "Withdrawal amount must be positive.") := by
        simp [BankAccount.withdraw, hq]
      refine ⟨?_, ?_, ?_, ?_⟩
      · rw [h1]; rfl
      · rw [h2]; rfl
      · simp [applyOp, h1]
      · simp [applyOp, h2]
  have hB : (errOf (BankAccount.init name b ty id today)).map BankErr.isInsufficientFunds
        = some false
      ∧ (sys.create_account name b ty id today).1 = sys := by
    rcases hb with rfl | ⟨p, rfl, hp⟩
    · exact ⟨rfl, rfl⟩
    · have h3 : BankAccount.init name (.num p) ty id today
          = .error (.valueError "Initial balance cannot be negative.") := by
        simp [BankAccount.init, hp]
      refine ⟨?_, ?_⟩
      · rw [h3]; rfl
      · simp [BankingSystem.create_account, h3]
  exact ⟨hDW.1, hDW.2.1, hDW.2.2.1, hDW.2.2.2, hB.1, hB.2⟩

/-- C5 witness: amount -5 for deposit/withdraw on a concrete account, and
a non-numeric initial balance for construction. -/
theorem invalid_argument_rejected_witness :
    (errOf (accA.deposit (.num (-5)) ts1)).map BankErr.isInsufficientFunds = some false
      ∧ (errOf (accA.withdraw (.num (-5)) ts1)).map BankErr.isInsufficientFunds = some false
      ∧ applyOp accA (.dep (.num (-5)) ts1) = accA
      ∧ applyOp accA (.wd (.num (-5)) ts1) = accA
      ∧ (errOf (BankAccount.init "Dan" .nonNum "Savings" "id9" "2026-01-01")).map
          BankErr.isInsufficientFunds = some false
      ∧ (sys0.create_account "Dan" .nonNum "Savings" "id9" "2026-01-01").1 = sys0 :=
  invalid_argument_rejected sys0 accA (.num (-5)) .nonNum ts1 "Dan" "Savings" "id9"
    "2026-01-01" (Or.inr ⟨-5, rfl, by norm_num⟩) (Or.inl rfl)

/-- C6: `create_account` with an initial balance rejected by the
constructor returns the failure message embedding the validation error
text and leaves the ledger unchanged; with a valid initial balance ≥ 0 it
returns the success message containing the generated identifier, and a
subsequent `get_account` on that identifier yields an account whose
balance equals the initial balance. -/
theorem create_account_spec (sys : BankingSystem) (name ty id today : String) :
    (∀ b e, BankAccount.init name b ty id today = .error e →
        sys.create_account name b ty id today
          = (sys, "Account creation failed: " ++ e.msg))
      ∧ (∀ q : ℚ, 0 ≤ q →
          (sys.create_account name (.num q) ty id today).2
              = "Account created successfully. Account number: " ++ id
            ∧ ((sys.create_account name (.num q) ty id today).1.get_account id).map
                (fun a => a.balance) = some q) := by
  constructor
  · intro b e he
    simp [BankingSystem.create_account, he]
  · intro q hq
    have hinit : BankAccount.init name (.num q) ty id today
        = .ok { account_number := id
                account_holder_name := name
                balance := q
                account_type := ty
                transactions := []
                creation_date := today } := by
      simp [BankAccount.init, not_lt.mpr hq]
    constructor
    · simp [BankingSystem.create_account, hinit]
    · simp [BankingSystem.create_account, hinit, BankingSystem.get_account,
        dictGet_dictSet]

/-- C6 witness: a non-numeric initial balance is rejected with the
embedded error text; a valid balance of 100 is stored and found again
under the generated identifier. -/
theorem create_account_spec_witness :
    sys0.create_account "Eve" .nonNum "Savings" "id7" "2026-01-01"
        = (sys0, "Account creation failed: "
            ++ (BankErr.typeError "Initial balance must be a number.").msg)
      ∧ ((sys0.create_account "Eve" (.num 100) "Savings" "id7" "2026-01-01").2
            = "Account created successfully. Account number: " ++ "id7"
          ∧ ((sys0.create_account "Eve" (.num 100) "Savings" "id7"
                "2026-01-01").1.get_account "id7").map (fun a => a.balance)
              = some 100) :=
  ⟨(create_account_spec sys0 "Eve" "Savings" "id7" "2026-01-01").1 .nonNum
      (.typeError "Initial balance must be a number.") rfl,
   (create_account_spec sys0 "Eve" "Savings" "id7" "2026-01-01").2 100 (by norm_num)⟩

/-- C7: looking up an identifier that is not a key of the ledger returns
`none` rather than an error; `get_account` is a pure function of the
ledger state, so the lookup cannot modify the ledger. -/
theorem get_account_unknown (sys : BankingSystem) (k : String)
    (h : k ∉ sys.accounts.map Prod.fst) :
    sys.get_account k = none :=
  dictGet_eq_none sys.accounts k h

/-- C7 witness: a two-account ledger and an identifier never inserted. -/
theorem get_account_unknown_witness : sysA.get_account "zz" = none :=
  get_account_unknown sysA "zz" (by decide)

/-- C8: deleting a present identifier removes it (a subsequent lookup
returns `none`), returns the success message naming the id, and a second
delete of the same id returns the not-found message; deleting an absent
identifier returns the not-found message and changes nothing. -/
theorem delete_account_spec (sys : BankingSystem) (k : String)
    (hnd : (sys.accounts.map Prod.fst).Nodup) :
    (sys.accounts.any (fun p => p.1 = k) = true →
        (sys.delete_account k).1.get_account k = none
          ∧ (sys.delete_account k).2 = "Account " ++ k ++ " deleted successfully."
          ∧ ((sys.delete_account k).1.delete_account k).2
              = "Account " ++ k ++ " not found.")
      ∧ (sys.accounts.any (fun p => p.1 = k) = false →
          sys.delete_account k = (sys, "Account " ++ k ++ " not found.")) := by
  constructor
  · intro hmem
    have hdel : sys.delete_account k
        = ({ accounts := dictDel sys.accounts k },
           "Account " ++ k ++ " deleted successfully.") := by
      simp [BankingSystem.delete_account, hmem]
    have hnk : k ∉ (dictDel sys.accounts k).map Prod.fst :=
      not_mem_keys_dictDel sys.accounts k hnd
    refine ⟨?_, ?_, ?_⟩
    · rw [hdel]
      exact dictGet_eq_none _ _ hnk
    · rw [hdel]
    · rw [hdel]
      simp [BankingSystem.delete_account, (any_eq_false_iff _ _).mpr hnk]
  · intro hmem
    simp [BankingSystem.delete_account, hmem]

/-- C8 witness: deleting "id1" from a two-account ledger, then deleting it
again; and deleting an absent identifier. -/
theorem delete_account_spec_witness :
    ((sysA.delete_account "id1").1.get_account "id1" = none
        ∧ (sysA.delete_account "id1").2 = "Account " ++ "id1" ++ " deleted successfully."
        ∧ ((sysA.delete_account "id1").1.delete_account "id1").2
            = "Account " ++ "id1" ++ " not found.")
      ∧ sysA.delete_account "zz" = (sysA, "Account " ++ "zz" ++ " not found.") :=
  ⟨(delete_account_spec sysA "id1" (by decide)).1 (by decide),
   (delete_account_spec sysA "zz" (by decide)).2 (by decide)⟩

/-- C9: with no transactions the report is the literal "No transactions
yet." message; otherwise it is the bordered block listing every
transaction in append order, one `transactionLine` each (timestamp as
`YYYY-MM-DD HH:MM:SS`, type left-aligned to width 10, amount right-aligned
to width 8 with two decimals); a negative amount is rendered with a
leading minus sign, so withdrawals carry their sign. -/
theorem format_history_spec (acc : BankAccount) :
    (acc.transactions = [] →
        acc.format_transaction_history = "No transactions yet.")
      ∧ (acc.transactions ≠ [] →
          acc.format_transaction_history
            = dashes30 ++ "\nTransaction History:\n" ++ dashes30 ++ "\n"
                ++ joinAll (acc.transactions.map transactionLine) ++ dashes30)
      ∧ (∀ q : ℚ, q < 0 → fmt2 q = "-" ++ fmt2 (-q)) := by
  refine ⟨?_, ?_, fmt2_neg⟩
  · intro h
    simp [BankAccount.format_transaction_history, h]
  · intro h
    rw [BankAccount.format_transaction_history, if_neg (by simpa using h),
      foldl_transactionLine]

/-- C9 witness: an empty account, an account with a deposit of 50 followed
by a withdrawal of 30, and the signed rendering of -30. -/
theorem format_history_spec_witness :
    accA.format_transaction_history = "No transactions yet."
      ∧ accH.format_transaction_history
          = dashes30 ++ "\nTransaction History:\n" ++ dashes30 ++ "\n"
              ++ joinAll (accH.transactions.map transactionLine) ++ dashes30
      ∧ fmt2 (-30) = "-" ++ fmt2 (-(-30)) :=
  ⟨(format_history_spec accA).1 rfl,
   (format_history_spec accH).2.1 (by decide),
   (format_history_spec accH).2.2 (-30) (by norm_num)⟩

/-- C10: `delete_account` touches only the named identifier: lookups of
every other identifier are unchanged by the call, and when the identifier
is absent the whole ledger is left unchanged. -/
theorem delete_account_frame (sys : BankingSystem) (k : String) :
    (∀ k', k' ≠ k →
        (sys.delete_account k).1.get_account k' = sys.get_account k')
      ∧ (sys.accounts.any (fun p => p.1 = k) = false →
          (sys.delete_account k).1 = sys) := by
  constructor
  · intro k' hk
    by_cases hmem : sys.accounts.any (fun p => p.1 = k) = true
    · simp only [BankingSystem.delete_account, if_pos hmem, BankingSystem.get_account]
      exact dictGet_dictDel_ne sys.accounts k k' hk
    · simp [BankingSystem.delete_account, hmem]
  · intro hmem
    simp [BankingSystem.delete_account, hmem]

/-- C10 witness: deleting "id1" leaves the lookup of "id2" unchanged, and
deleting an absent identifier leaves the ledger unchanged. -/
theorem delete_account_frame_witness :
    (sysA.delete_account "id1").1.get_account "id2" = sysA.get_account "id2"
      ∧ (sysA.delete_account "zz").1 = sysA :=
  ⟨(delete_account_frame sysA "id1").1 "id2" (by decide),
   (delete_account_frame sysA "zz").2 (by decide)⟩
